import Mathlib

/-!
Verification development for the shot-analytics dashboard (`src/app.py`).

The file embeds the computational core of the dashboard:

* `compute_stats` — the server-side (Python/pandas) aggregate computation
  (`app.py` lines 39-62), over a list of shot records;
* `outcome_pcts` — the per-outcome percentages computed while rendering the
  stats card (`app.py` lines 89-94);
* `mkSource` / `jsStep` / `jsAgg` / `jsStatsOf` — the client-side slider
  callback `STATS_JS` (`app.py` lines 136-152 build the column data source,
  lines 177-264 the callback): a single forward loop that filters by
  `xg[i] >= thresh`, accumulates the counters, and recomputes the derived
  percentages;
* `updateDisplay` — the display-attribute rewrites the same loop performs
  (`color`, `alpha`, `marker_size`);
* `sortByXG` / `cumsum` / `overperfRows` / `peak_idx_in_list` /
  `peak_overp_val` — the xG overperformance curve (`app.py` lines 274-293);
* `sit_data` / `type_data` — the category breakdowns (`app.py` lines
  371-385 and 441-455).

Numbers are modelled exactly over `ℚ`.  Pandas library calls are modelled by
their documented semantics: `Series.max` on a non-empty series is the
maximum (`listMax`), `Series.idxmax` is the index of the first occurrence of
the maximum and raises `ValueError` on an empty series (`idxmax` returns
`Except`), and `Series.max` of an empty series has no numeric value
(`listMaxOpt` returns `none`).  `sort_values` is called with the default
`kind="quicksort"`, whose tie order is implementation defined; the model
uses a stable insertion sort, which realises the spec's stated convention
(ties keep insertion order) but is a modelling choice, not a fact of the
source (see the development's notes on the sort).
-/

/-- One shot record: `xG` (the success probability), the `result` outcome
string, and the two categorical fields used by the breakdowns. -/
structure ShotRecord where
  probability : ℚ
  outcome : String
  situation : String
  shotType : String
deriving DecidableEq

/-- Maximum of a list of rationals, `0` on the empty list.  Models pandas
`Series.max` in the guarded position of `compute_stats`, where the list is
known non-empty before it is taken. -/
def listMax : List ℚ → ℚ
  | [] => 0
  | x :: xs => xs.foldl max x

/-- Maximum of a list of rationals as an `Option`, `none` on the empty list.
Models pandas `Series.max` where no guard protects it: on an empty series
pandas produces no numeric value (NaN). -/
def listMaxOpt : List ℚ → Option ℚ
  | [] => none
  | x :: xs => some (xs.foldl max x)

/-- The dictionary `compute_stats` returns (`app.py` lines 39-62). -/
structure PyStats where
  shots : ℕ
  goals : ℕ
  on_tgt : ℕ
  xg_sum : ℚ
  high_xg : ℚ
  conv_pct : ℚ
  on_tgt_pct : ℚ
  xg_per : ℚ
  xg_diff : ℚ
  blocked : ℕ
  missed : ℕ
  saved : ℕ
  post : ℕ
deriving DecidableEq

/-- The server-side aggregate computation, `compute_stats` (`app.py` lines
39-62): counts, rates with a `shots > 0` guard defaulting to `0.0`,
`high_xg` defaulting to `0.0` on an empty frame, and
`xg_diff = goals - xg_sum`. -/
def compute_stats (pdf : List ShotRecord) : PyStats :=
  let shots := pdf.length
  let goals := pdf.countP (fun r => r.outcome == "Goal")
  let on_tgt := pdf.countP (fun r => r.outcome == "Goal" || r.outcome == "SavedShot")
  let xg_sum := (pdf.map (fun r => r.probability)).sum
  let high_xg := if 0 < shots then listMax (pdf.map (fun r => r.probability)) else 0
  let conv_pct := if 0 < shots then (goals : ℚ) / (shots : ℚ) * 100 else 0
  let on_tgt_pct := if 0 < shots then (on_tgt : ℚ) / (shots : ℚ) * 100 else 0
  let xg_per := if 0 < shots then xg_sum / (shots : ℚ) else 0
  let xg_diff := (goals : ℚ) - xg_sum
  let blocked := pdf.countP (fun r => r.outcome == "BlockedShot")
  let missed := pdf.countP (fun r => r.outcome == "MissedShots")
  let saved := pdf.countP (fun r => r.outcome == "SavedShot")
  let post := pdf.countP (fun r => r.outcome == "ShotOnPost")
  { shots := shots, goals := goals, on_tgt := on_tgt, xg_sum := xg_sum,
    high_xg := high_xg, conv_pct := conv_pct, on_tgt_pct := on_tgt_pct,
    xg_per := xg_per, xg_diff := xg_diff, blocked := blocked,
    missed := missed, saved := saved, post := post }

/-- The per-outcome percentages computed while rendering the stats card
(`app.py` lines 89-94), each guarded by `total > 0`. -/
structure OutcomePcts where
  goal_pct : ℚ
  saved_pct : ℚ
  missed_pct : ℚ
  blocked_pct : ℚ
  post_pct : ℚ
deriving DecidableEq

/-- Models `render_stats_html`'s outcome-percentage block (`app.py` lines
89-94). -/
def outcome_pcts (s : PyStats) : OutcomePcts :=
  { goal_pct := if 0 < s.shots then (s.goals : ℚ) / (s.shots : ℚ) * 100 else 0,
    saved_pct := if 0 < s.shots then (s.saved : ℚ) / (s.shots : ℚ) * 100 else 0,
    missed_pct := if 0 < s.shots then (s.missed : ℚ) / (s.shots : ℚ) * 100 else 0,
    blocked_pct := if 0 < s.shots then (s.blocked : ℚ) / (s.shots : ℚ) * 100 else 0,
    post_pct := if 0 < s.shots then (s.post : ℚ) / (s.shots : ℚ) * 100 else 0 }

/-- The Bokeh `ColumnDataSource` the callback mutates (`app.py` lines
136-152): parallel arrays of per-shot data and display attributes. -/
structure CDS where
  xg : List ℚ
  goal_flag : List ℕ
  on_target : List ℕ
  blocked : List ℕ
  missed : List ℕ
  saved : List ℕ
  post : List ℕ
  color : List String
  alpha : List ℚ
  marker_size : List ℕ
  line_color : List String
deriving DecidableEq

/-- Builds the `ColumnDataSource` from the player's records (`app.py` lines
136-152): `xg` is the probability column, the outcome flags are 0/1
indicator columns, and the display attributes get their initial values. -/
def mkSource (l : List ShotRecord) : CDS :=
  { xg := l.map (fun r => r.probability),
    goal_flag := l.map (fun r => if r.outcome == "Goal" then 1 else 0),
    on_target := l.map (fun r => if r.outcome == "Goal" || r.outcome == "SavedShot" then 1 else 0),
    blocked := l.map (fun r => if r.outcome == "BlockedShot" then 1 else 0),
    missed := l.map (fun r => if r.outcome == "MissedShots" then 1 else 0),
    saved := l.map (fun r => if r.outcome == "SavedShot" then 1 else 0),
    post := l.map (fun r => if r.outcome == "ShotOnPost" then 1 else 0),
    color := l.map (fun r => if r.outcome == "Goal" then "#00e676" else "#ff5f52"),
    alpha := l.map (fun _ => (85 : ℚ) / 100),
    marker_size := l.map (fun r => if r.outcome == "Goal" then 12 else 9),
    line_color := l.map (fun r => if r.outcome == "Goal" then "#00e676" else "white") }

/-- One row of the parallel arrays, as the callback's loop body reads it at
index `i`. -/
structure Row where
  xg : ℚ
  goal_flag : ℕ
  on_target : ℕ
  blocked : ℕ
  missed : ℕ
  saved : ℕ
  post : ℕ
deriving DecidableEq

/-- Zips the seven per-shot arrays into rows, truncating at the shortest
(the arrays of a well-formed source all have the same length). -/
def zipRows : List ℚ → List ℕ → List ℕ → List ℕ → List ℕ → List ℕ → List ℕ → List Row
  | x :: xs, a :: as, b :: bs, c :: cs, d :: ds, e :: es, f :: fs =>
      { xg := x, goal_flag := a, on_target := b, blocked := c,
        missed := d, saved := e, post := f } :: zipRows xs as bs cs ds es fs
  | _, _, _, _, _, _, _ => []

/-- The rows of a column data source. -/
def CDS.rows (d : CDS) : List Row :=
  zipRows d.xg d.goal_flag d.on_target d.blocked d.missed d.saved d.post

/-- The row a record contributes to `mkSource`. -/
def toRow (r : ShotRecord) : Row :=
  { xg := r.probability,
    goal_flag := if r.outcome == "Goal" then 1 else 0,
    on_target := if r.outcome == "Goal" || r.outcome == "SavedShot" then 1 else 0,
    blocked := if r.outcome == "BlockedShot" then 1 else 0,
    missed := if r.outcome == "MissedShots" then 1 else 0,
    saved := if r.outcome == "SavedShot" then 1 else 0,
    post := if r.outcome == "ShotOnPost" then 1 else 0 }

/-- The accumulator of `STATS_JS`'s loop (`app.py` lines 191-192):
`let shots=0, goals=0, onTgt=0, xgSum=0, highXg=-1; let nBlocked=0, ...`. -/
structure JSAcc where
  shots : ℕ
  goals : ℕ
  onTgt : ℕ
  xgSum : ℚ
  highXg : ℚ
  nBlocked : ℕ
  nMissed : ℕ
  nSaved : ℕ
  nPost : ℕ
deriving DecidableEq

/-- The callback's initial accumulator: every counter `0`, `highXg = -1`. -/
def jsInit : JSAcc :=
  { shots := 0, goals := 0, onTgt := 0, xgSum := 0, highXg := -1,
    nBlocked := 0, nMissed := 0, nSaved := 0, nPost := 0 }

/-- One iteration of the `STATS_JS` loop (`app.py` lines 194-213), restricted
to the accumulator updates of the `xg[i] >= thresh` branch; the `else`
branch touches only display attributes. -/
def jsStep (thresh : ℚ) (acc : JSAcc) (r : Row) : JSAcc :=
  if thresh ≤ r.xg then
    { shots := acc.shots + 1,
      goals := acc.goals + r.goal_flag,
      onTgt := acc.onTgt + r.on_target,
      xgSum := acc.xgSum + r.xg,
      highXg := if acc.highXg < r.xg then r.xg else acc.highXg,
      nBlocked := acc.nBlocked + r.blocked,
      nMissed := acc.nMissed + r.missed,
      nSaved := acc.nSaved + r.saved,
      nPost := acc.nPost + r.post }
  else acc

/-- The `STATS_JS` loop over a list of rows. -/
def jsLoop (thresh : ℚ) (acc : JSAcc) (rows : List Row) : JSAcc :=
  rows.foldl (jsStep thresh) acc

/-- The accumulator the callback reaches after its loop over the source's
rows. -/
def jsAgg (thresh : ℚ) (d : CDS) : JSAcc :=
  jsLoop thresh jsInit d.rows

/-- Every value `STATS_JS` derives after its loop (`app.py` lines 216-227):
the raw counters plus the guarded percentages. -/
structure JSStats where
  shots : ℕ
  goals : ℕ
  onTgt : ℕ
  xgSum : ℚ
  highXg : ℚ
  nBlocked : ℕ
  nMissed : ℕ
  nSaved : ℕ
  nPost : ℕ
  convPct : ℚ
  onTgtPct : ℚ
  xgPerShot : ℚ
  xgDiff : ℚ
  goalPct : ℚ
  savedPct : ℚ
  missedPct : ℚ
  blockedPct : ℚ
  postPct : ℚ
deriving DecidableEq

/-- The callback's full statistics output (`app.py` lines 191-227). -/
def jsStatsOf (thresh : ℚ) (d : CDS) : JSStats :=
  let a := jsAgg thresh d
  { shots := a.shots, goals := a.goals, onTgt := a.onTgt, xgSum := a.xgSum,
    highXg := a.highXg, nBlocked := a.nBlocked, nMissed := a.nMissed,
    nSaved := a.nSaved, nPost := a.nPost,
    convPct := if 0 < a.shots then (a.goals : ℚ) / (a.shots : ℚ) * 100 else 0,
    onTgtPct := if 0 < a.shots then (a.onTgt : ℚ) / (a.shots : ℚ) * 100 else 0,
    xgPerShot := if 0 < a.shots then a.xgSum / (a.shots : ℚ) else 0,
    xgDiff := (a.goals : ℚ) - a.xgSum,
    goalPct := if 0 < a.shots then (a.goals : ℚ) / (a.shots : ℚ) * 100 else 0,
    savedPct := if 0 < a.shots then (a.nSaved : ℚ) / (a.shots : ℚ) * 100 else 0,
    missedPct := if 0 < a.shots then (a.nMissed : ℚ) / (a.shots : ℚ) * 100 else 0,
    blockedPct := if 0 < a.shots then (a.nBlocked : ℚ) / (a.shots : ℚ) * 100 else 0,
    postPct := if 0 < a.shots then (a.nPost : ℚ) / (a.shots : ℚ) * 100 else 0 }

/-- The display-attribute rewrites of the `STATS_JS` loop (`app.py` lines
194-213): inside the threshold each dot gets its goal/miss colour, alpha
`0.85` and size `12`/`9`; outside it is greyed (`"#555555"`, `0.25`, `6`).
All other arrays of the source are left as they are. -/
def updateDisplay (thresh : ℚ) (d : CDS) : CDS :=
  { d with
    color := (d.xg.zip d.goal_flag).map (fun p =>
      if thresh ≤ p.1 then (if p.2 != 0 then "#00e676" else "#ff5f52") else "#555555"),
    alpha := d.xg.map (fun x => if thresh ≤ x then (85 : ℚ) / 100 else (25 : ℚ) / 100),
    marker_size := (d.xg.zip d.goal_flag).map (fun p =>
      if thresh ≤ p.1 then (if p.2 != 0 then 12 else 9) else 6) }

/-- The threshold filter: the subsequence of records with
`probability ≥ threshold` (the condition `xg[i] >= thresh` of `STATS_JS`,
and the spec's `filterByThreshold`). -/
def filterByThreshold (l : List ShotRecord) (t : ℚ) : List ShotRecord :=
  l.filter (fun r => decide (t ≤ r.probability))

/-- Ordering of records by ascending probability, the key of
`sort_values("xG", ascending=True)` (`app.py` line 274). -/
def probLE (a b : ShotRecord) : Prop := a.probability ≤ b.probability

instance : DecidableRel probLE := fun a b =>
  inferInstanceAs (Decidable (a.probability ≤ b.probability))

instance : IsTotal ShotRecord probLE := ⟨fun a b => le_total a.probability b.probability⟩

instance : IsTrans ShotRecord probLE := ⟨fun _ _ _ h h' => le_trans h h'⟩

/-- The ascending sort of `app.py` line 274.  The source calls pandas
`sort_values` with the default `kind="quicksort"`, whose order among equal
keys is implementation defined; the model uses a stable insertion sort,
which preserves insertion order among equal probabilities. -/
def sortByXG (l : List ShotRecord) : List ShotRecord :=
  List.insertionSort probLE l

/-- Running sums starting from `acc`. -/
def cumsumFrom (acc : ℚ) : List ℚ → List ℚ
  | [] => []
  | x :: xs => (acc + x) :: cumsumFrom (acc + x) xs

/-- Pandas `cumsum`: `cumsum [a, b, c] = [a, a + b, a + b + c]`. -/
def cumsum (l : List ℚ) : List ℚ :=
  cumsumFrom 0 l

/-- The 0/1 goal indicator column `is_goal` (`app.py` line 275), as the
rational it is summed as. -/
def goalInd (r : ShotRecord) : ℚ :=
  if r.outcome == "Goal" then 1 else 0

/-- The `cum_expected` rows of the sorted frame (`app.py` line 276). -/
def cumExpectedRows (l : List ShotRecord) : List ℚ :=
  cumsum ((sortByXG l).map (fun r => r.probability))

/-- The `cum_actual` rows of the sorted frame (`app.py` line 277). -/
def cumActualRows (l : List ShotRecord) : List ℚ :=
  cumsum ((sortByXG l).map goalInd)

/-- The `overperf` rows of the sorted frame (`app.py` line 278):
`cum_actual - cum_expected`, pointwise. -/
def overperfRows (l : List ShotRecord) : List ℚ :=
  List.zipWith (fun a b => a - b) (cumActualRows l) (cumExpectedRows l)

/-- The plotted `cum_expected` sequence with the synthetic zero point
(`app.py` line 282). -/
def cum_expected_list (l : List ShotRecord) : List ℚ :=
  0 :: cumExpectedRows l

/-- The plotted `cum_actual` sequence with the synthetic zero point
(`app.py` line 283). -/
def cum_actual_list (l : List ShotRecord) : List ℚ :=
  0 :: cumActualRows l

/-- The plotted `overperf` sequence with the synthetic zero point
(`app.py` line 284). -/
def overperf_list (l : List ShotRecord) : List ℚ :=
  0 :: overperfRows l

/-- Models pandas `Series.idxmax` on a default integer index: the index of
the first occurrence of the maximum; on an empty series pandas raises
`ValueError`. -/
def idxmax : List ℚ → Except String ℕ
  | [] => Except.error "attempt to get argmax of an empty sequence"
  | x :: xs =>
      Except.ok (List.findIdx (fun v => decide (v = xs.foldl max x)) (x :: xs))

/-- The peak index in the plotted sequence (`app.py` line 292):
`idxmax` of the `overperf` rows, shifted by one past the zero point. -/
def peak_idx_in_list (l : List ShotRecord) : Except String ℕ :=
  (idxmax (overperfRows l)).map (fun i => i + 1)

/-- The peak value (`app.py` line 293): the maximum of the `overperf` rows,
with no numeric value on an empty frame. -/
def peak_overp_val (l : List ShotRecord) : Option ℚ :=
  listMaxOpt (overperfRows l)

/-- The consumer's gate (`app.py` line 340): the peak label and marker are
added only when `peak_overp_val > 0`. -/
def peakReported (l : List ShotRecord) : Bool :=
  match peak_overp_val l with
  | some v => decide (0 < v)
  | none => false

/-- One row of a category breakdown (`app.py` lines 380-385 and 450-455). -/
structure CatRow where
  category : String
  attempts : ℕ
  goals : ℕ
  conv : ℚ
deriving DecidableEq

/-- The fixed situation display order (`app.py` line 374). -/
def situations : List String := ["FromCorner", "SetPiece", "OpenPlay"]

/-- The fixed shot-type display order (`app.py` line 444). -/
def shot_types : List String := ["Head", "RightFoot", "LeftFoot", "OtherBodyPart"]

/-- Models `sit_counts.get(s, 0)` (`app.py` lines 371, 377): how many records
have the given situation. -/
def sit_counts (l : List ShotRecord) (s : String) : ℕ :=
  l.countP (fun r => r.situation == s)

/-- Models `sit_goals.get(s, 0)` (`app.py` lines 372, 378): how many goal
records have the given situation. -/
def sit_goals (l : List ShotRecord) (s : String) : ℕ :=
  l.countP (fun r => r.outcome == "Goal" && r.situation == s)

/-- The situation breakdown (`app.py` lines 374-385): for each situation of
the fixed list, in order, a row when its attempt count is positive. -/
def sit_data (l : List ShotRecord) : List CatRow :=
  situations.filterMap (fun s =>
    let total := sit_counts l s
    let goals := sit_goals l s
    if 0 < total then
      some { category := s, attempts := total, goals := goals,
             conv := (goals : ℚ) / (total : ℚ) * 100 }
    else none)

/-- Models `type_counts.get(st, 0)` (`app.py` lines 441, 447). -/
def type_counts (l : List ShotRecord) (s : String) : ℕ :=
  l.countP (fun r => r.shotType == s)

/-- Models `type_goals.get(st, 0)` (`app.py` lines 442, 448). -/
def type_goals (l : List ShotRecord) (s : String) : ℕ :=
  l.countP (fun r => r.outcome == "Goal" && r.shotType == s)

/-- The shot-type breakdown (`app.py` lines 444-455), same shape as the
situation breakdown over the fixed type list. -/
def type_data (l : List ShotRecord) : List CatRow :=
  shot_types.filterMap (fun s =>
    let total := type_counts l s
    let goals := type_goals l s
    if 0 < total then
      some { category := s, attempts := total, goals := goals,
             conv := (goals : ℚ) / (total : ℚ) * 100 }
    else none)

/-! ## Helper lemmas -/

lemma sum_map_ite_nat {α : Type} (p : α → Bool) (l : List α) :
    (l.map (fun a => if p a then (1 : ℕ) else 0)).sum = l.countP p := by
  induction l with
  | nil => rfl
  | cons a t ih =>
      by_cases h : p a
      · simp [List.countP_cons, h, ih, Nat.add_comm]
      · simp [List.countP_cons, h, ih]

lemma sum_map_goalInd (l : List ShotRecord) :
    (l.map goalInd).sum = (l.countP (fun r => r.outcome == "Goal") : ℚ) := by
  induction l with
  | nil => rfl
  | cons a t ih =>
      by_cases h : a.outcome == "Goal"
      · simp [goalInd, List.countP_cons, h, ih]
        ring
      · simp [goalInd, List.countP_cons, h, ih]

lemma ite_lt_eq_max (c x : ℚ) : (if c < x then x else c) = max c x := by
  rcases le_or_lt x c with h | h
  · simp [not_lt.mpr h, max_eq_left h]
  · simp [h, max_eq_right h.le]

lemma foldl_max_pull (t : List ℚ) : ∀ a b : ℚ, t.foldl max (max a b) = max a (t.foldl max b) := by
  induction t with
  | nil => intro a b; rfl
  | cons x t ih =>
      intro a b
      simp only [List.foldl_cons]
      rw [max_assoc, ih]

lemma le_foldl_max (t : List ℚ) : ∀ a : ℚ, a ≤ t.foldl max a := by
  induction t with
  | nil => intro a; exact le_refl a
  | cons x t ih =>
      intro a
      exact le_trans (le_max_left a x) (ih (max a x))

lemma mem_le_foldl_max (t : List ℚ) : ∀ a x : ℚ, x ∈ t → x ≤ t.foldl max a := by
  induction t with
  | nil => intro a x hx; cases hx
  | cons y t ih =>
      intro a x hx
      rcases List.mem_cons.mp hx with h | h
      · subst h
        exact le_trans (le_max_right a x) (le_foldl_max t (max a x))
      · exact ih (max a y) x h

lemma foldl_max_mem (t : List ℚ) : ∀ a : ℚ, t.foldl max a = a ∨ t.foldl max a ∈ t := by
  induction t with
  | nil => intro a; exact Or.inl rfl
  | cons x t ih =>
      intro a
      have hfold : (x :: t).foldl max a = t.foldl max (max a x) := rfl
      rcases ih (max a x) with h | h
      · rcases max_choice a x with hm | hm
        · exact Or.inl (by rw [hfold, h, hm])
        · exact Or.inr (by rw [hfold, h, hm]; exact List.mem_cons_self x t)
      · exact Or.inr (by rw [hfold]; exact List.mem_cons_of_mem x h)

lemma listMax_mem (l : List ℚ) (hl : l ≠ []) : listMax l ∈ l := by
  match l with
  | x :: xs =>
      rcases foldl_max_mem xs x with h | h
      · rw [listMax, h]; exact List.mem_cons_self x xs
      · rw [listMax]; exact List.mem_cons_of_mem x h

lemma le_listMax (l : List ℚ) (x : ℚ) (hx : x ∈ l) : x ≤ listMax l := by
  match l with
  | y :: ys =>
      rcases List.mem_cons.mp hx with h | h
      · subst h; exact le_foldl_max ys x
      · exact mem_le_foldl_max ys y x h

lemma cumsumFrom_length (l : List ℚ) : ∀ acc : ℚ, (cumsumFrom acc l).length = l.length := by
  induction l with
  | nil => intro acc; rfl
  | cons x t ih => intro acc; simp [cumsumFrom, ih]

lemma cumsumFrom_getD (l : List ℚ) :
    ∀ (acc d : ℚ) (i : ℕ), i ≤ l.length →
      (acc :: cumsumFrom acc l).getD i d = acc + (l.take i).sum := by
  induction l with
  | nil =>
      intro acc d i hi
      have : i = 0 := Nat.le_zero.mp hi
      subst this; simp
  | cons x t ih =>
      intro acc d i hi
      cases i with
      | zero => simp
      | succ j =>
          have hj : j ≤ t.length := by simpa using Nat.succ_le_succ_iff.mp (by simpa using hi)
          calc (acc :: cumsumFrom acc (x :: t)).getD (j + 1) d
              = ((acc + x) :: cumsumFrom (acc + x) t).getD j d := rfl
            _ = (acc + x) + (t.take j).sum := ih (acc + x) d j hj
            _ = acc + ((x :: t).take (j + 1)).sum := by simp; ring

lemma zipWith_sub_getD (as : List ℚ) :
    ∀ (bs : List ℚ) (i : ℕ) (d : ℚ), i < as.length → i < bs.length →
      (List.zipWith (fun a b => a - b) as bs).getD i d = as.getD i d - bs.getD i d := by
  induction as with
  | nil => intro bs i d hi _; simp at hi
  | cons a as ih =>
      intro bs i d hi hbi
      match bs, i with
      | b :: bs, 0 => simp
      | b :: bs, j + 1 =>
          have h1 : j < as.length := by simpa using hi
          have h2 : j < bs.length := by simpa using hbi
          simpa using ih bs j d h1 h2

lemma sortByXG_length (l : List ShotRecord) : (sortByXG l).length = l.length :=
  List.length_insertionSort probLE l

lemma cumExpectedRows_length (l : List ShotRecord) : (cumExpectedRows l).length = l.length := by
  simp [cumExpectedRows, cumsum, cumsumFrom_length, sortByXG_length]

lemma cumActualRows_length (l : List ShotRecord) : (cumActualRows l).length = l.length := by
  simp [cumActualRows, cumsum, cumsumFrom_length, sortByXG_length]

lemma overperfRows_length (l : List ShotRecord) : (overperfRows l).length = l.length := by
  simp [overperfRows, cumActualRows_length, cumExpectedRows_length]

lemma jsLoop_spec (t : ℚ) (rows : List Row) : ∀ acc : JSAcc,
    jsLoop t acc rows =
      { shots := acc.shots + (rows.filter (fun p => decide (t ≤ p.xg))).length,
        goals := acc.goals + ((rows.filter (fun p => decide (t ≤ p.xg))).map Row.goal_flag).sum,
        onTgt := acc.onTgt + ((rows.filter (fun p => decide (t ≤ p.xg))).map Row.on_target).sum,
        xgSum := acc.xgSum + ((rows.filter (fun p => decide (t ≤ p.xg))).map Row.xg).sum,
        highXg := ((rows.filter (fun p => decide (t ≤ p.xg))).map Row.xg).foldl max acc.highXg,
        nBlocked := acc.nBlocked + ((rows.filter (fun p => decide (t ≤ p.xg))).map Row.blocked).sum,
        nMissed := acc.nMissed + ((rows.filter (fun p => decide (t ≤ p.xg))).map Row.missed).sum,
        nSaved := acc.nSaved + ((rows.filter (fun p => decide (t ≤ p.xg))).map Row.saved).sum,
        nPost := acc.nPost + ((rows.filter (fun p => decide (t ≤ p.xg))).map Row.post).sum } := by
  induction rows with
  | nil => intro acc; simp [jsLoop]
  | cons r rows ih =>
      intro acc
      have hstep : jsLoop t acc (r :: rows) = jsLoop t (jsStep t acc r) rows := rfl
      by_cases h : t ≤ r.xg
      · rw [hstep, ih (jsStep t acc r)]
        simp only [jsStep, if_pos h, List.filter_cons, decide_eq_true h, if_true, ite_true,
          List.map_cons, List.sum_cons, List.length_cons, List.foldl_cons, ite_lt_eq_max,
          JSAcc.mk.injEq]
        refine ⟨by omega, by omega, by omega, by ring, by trivial, by omega, by omega,
          by omega, by omega⟩
      · rw [hstep, ih (jsStep t acc r)]
        simp [jsStep, h, List.filter_cons]

lemma rows_mkSource (l : List ShotRecord) : (mkSource l).rows = l.map toRow := by
  induction l with
  | nil => rfl
  | cons r t ih =>
      simp only [CDS.rows, mkSource, List.map_cons] at ih ⊢
      simpa [zipRows, toRow] using ih

lemma filter_map_toRow (l : List ShotRecord) (t : ℚ) :
    (l.map toRow).filter (fun p => decide (t ≤ p.xg)) = (filterByThreshold l t).map toRow := by
  rw [List.filter_map]
  rfl

lemma jsAgg_mkSource (t : ℚ) (l : List ShotRecord) :
    jsAgg t (mkSource l) =
      { shots := (filterByThreshold l t).length,
        goals := (filterByThreshold l t).countP (fun r => r.outcome == "Goal"),
        onTgt := (filterByThreshold l t).countP
          (fun r => r.outcome == "Goal" || r.outcome == "SavedShot"),
        xgSum := ((filterByThreshold l t).map (fun r => r.probability)).sum,
        highXg := (((filterByThreshold l t).map (fun r => r.probability)).foldl max (-1)),
        nBlocked := (filterByThreshold l t).countP (fun r => r.outcome == "BlockedShot"),
        nMissed := (filterByThreshold l t).countP (fun r => r.outcome == "MissedShots"),
        nSaved := (filterByThreshold l t).countP (fun r => r.outcome == "SavedShot"),
        nPost := (filterByThreshold l t).countP (fun r => r.outcome == "ShotOnPost") } := by
  rw [jsAgg, rows_mkSource, jsLoop, ← jsLoop]
  rw [jsLoop_spec t (l.map toRow) jsInit, filter_map_toRow]
  simp only [jsInit, List.map_map, List.length_map, JSAcc.mk.injEq]
  refine ⟨by omega, ?_, ?_, ?_, ?_, ?_, ?_, ?_, ?_⟩
  · rw [show (Row.goal_flag ∘ toRow) = (fun r : ShotRecord =>
      if r.outcome == "Goal" then (1 : ℕ) else 0) from rfl, sum_map_ite_nat]
    omega
  · rw [show (Row.on_target ∘ toRow) = (fun r : ShotRecord =>
      if r.outcome == "Goal" || r.outcome == "SavedShot" then (1 : ℕ) else 0) from rfl,
      sum_map_ite_nat]
    omega
  · rw [show (Row.xg ∘ toRow) = (fun r : ShotRecord => r.probability) from rfl]
    ring
  · rw [show (Row.xg ∘ toRow) = (fun r : ShotRecord => r.probability) from rfl]
  · rw [show (Row.blocked ∘ toRow) = (fun r : ShotRecord =>
      if r.outcome == "BlockedShot" then (1 : ℕ) else 0) from rfl, sum_map_ite_nat]
    omega
  · rw [show (Row.missed ∘ toRow) = (fun r : ShotRecord =>
      if r.outcome == "MissedShots" then (1 : ℕ) else 0) from rfl, sum_map_ite_nat]
    omega
  · rw [show (Row.saved ∘ toRow) = (fun r : ShotRecord =>
      if r.outcome == "SavedShot" then (1 : ℕ) else 0) from rfl, sum_map_ite_nat]
    omega
  · rw [show (Row.post ∘ toRow) = (fun r : ShotRecord =>
      if r.outcome == "ShotOnPost" then (1 : ℕ) else 0) from rfl, sum_map_ite_nat]
    omega

lemma foldl_max_neg_one (ps : List ℚ) (hne : ps ≠ []) (hpos : ∀ x ∈ ps, 0 < x) :
    ps.foldl max (-1) = listMax ps := by
  match ps with
  | p :: rest =>
      have hp : (0 : ℚ) < p := hpos p (List.mem_cons_self p rest)
      have hmax : max (-1 : ℚ) p = p := max_eq_right (by linarith)
      simp only [List.foldl_cons, hmax, listMax]

/-! ## Example records -/

/-- A converted high-quality chance. -/
def exGoal : ShotRecord := ⟨1/2, "Goal", "OpenPlay", "RightFoot"⟩

/-- A missed low-quality chance. -/
def exMiss : ShotRecord := ⟨1/5, "MissedShots", "OpenPlay", "Head"⟩

/-- A converted chance easier than any in the other examples. -/
def exEasy : ShotRecord := ⟨9/10, "Goal", "FromCorner", "LeftFoot"⟩

/-- A record whose situation is outside the fixed display list. -/
def exPenalty : ShotRecord := ⟨3/4, "Goal", "Penalty", "RightFoot"⟩

/-! ## Claims -/

/-- C1 (amended): for every record sequence and every threshold, the Python
path (`compute_stats` on the records with `probability ≥ threshold`) and the
JavaScript slider callback (`STATS_JS` filtering with `xg[i] >= thresh`)
agree exactly on count, success count, on-target count, probability sum,
conversion rate, on-target rate, average probability, performance delta and
the per-outcome counts; the maximum probability also agrees whenever the
filtered view is non-empty.  (On an empty filtered view the two paths
differ: the claim as stated fails there, see the counterexample.) -/
theorem client_server_parity (l : List ShotRecord) (t : ℚ)
    (hpos : ∀ r ∈ l, 0 < r.probability) :
    (compute_stats (filterByThreshold l t)).shots = (jsStatsOf t (mkSource l)).shots ∧
    (compute_stats (filterByThreshold l t)).goals = (jsStatsOf t (mkSource l)).goals ∧
    (compute_stats (filterByThreshold l t)).on_tgt = (jsStatsOf t (mkSource l)).onTgt ∧
    (compute_stats (filterByThreshold l t)).xg_sum = (jsStatsOf t (mkSource l)).xgSum ∧
    (compute_stats (filterByThreshold l t)).conv_pct = (jsStatsOf t (mkSource l)).convPct ∧
    (compute_stats (filterByThreshold l t)).on_tgt_pct = (jsStatsOf t (mkSource l)).onTgtPct ∧
    (compute_stats (filterByThreshold l t)).xg_per = (jsStatsOf t (mkSource l)).xgPerShot ∧
    (compute_stats (filterByThreshold l t)).xg_diff = (jsStatsOf t (mkSource l)).xgDiff ∧
    (compute_stats (filterByThreshold l t)).blocked = (jsStatsOf t (mkSource l)).nBlocked ∧
    (compute_stats (filterByThreshold l t)).missed = (jsStatsOf t (mkSource l)).nMissed ∧
    (compute_stats (filterByThreshold l t)).saved = (jsStatsOf t (mkSource l)).nSaved ∧
    (compute_stats (filterByThreshold l t)).post = (jsStatsOf t (mkSource l)).nPost ∧
    (filterByThreshold l t ≠ [] →
      (compute_stats (filterByThreshold l t)).high_xg = (jsStatsOf t (mkSource l)).highXg) := by
  have hagg := jsAgg_mkSource t l
  simp only [jsStatsOf, hagg]
  refine ⟨rfl, rfl, rfl, rfl, rfl, rfl, rfl, rfl, rfl, rfl, rfl, rfl, ?_⟩
  intro hne
  have hlen : 0 < (filterByThreshold l t).length := List.length_pos.mpr hne
  have hne' : (filterByThreshold l t).map (fun r => r.probability) ≠ [] := by
    simpa [List.map_eq_nil_iff] using hne
  have hpos' : ∀ x ∈ (filterByThreshold l t).map (fun r => r.probability), 0 < x := by
    intro x hx
    rcases List.mem_map.mp hx with ⟨r, hr, hxr⟩
    exact hxr ▸ hpos r (List.mem_of_mem_filter hr)
  show (compute_stats (filterByThreshold l t)).high_xg = _
  simp only [compute_stats, if_pos hlen]
  exact (foldl_max_neg_one _ hne' hpos').symm

/-- C1 counterexample: with a single missed shot of probability `1/5` and
threshold `1`, the filtered view is empty; the Python path reports
`high_xg = 0.0` while the callback reports `highXg = -1`, so the two paths
are not numerically identical on the maximum probability. -/
theorem client_server_parity_cex :
    (compute_stats (filterByThreshold [exMiss] 1)).high_xg ≠
      (jsStatsOf 1 (mkSource [exMiss])).highXg := by
  have hfil : filterByThreshold [exMiss] 1 = [] := by
    simp [filterByThreshold, exMiss]
    norm_num
  simp only [jsStatsOf, jsAgg_mkSource, hfil, compute_stats]
  norm_num

/-- C1 witness: the parity theorem applied to a concrete two-record view. -/
theorem client_server_parity_witness :
    (∀ r ∈ [exGoal, exMiss], 0 < r.probability) ∧
      (compute_stats (filterByThreshold [exGoal, exMiss] (3/10))).shots =
        (jsStatsOf (3/10) (mkSource [exGoal, exMiss])).shots :=
  ⟨by simp [exGoal, exMiss],
    (client_server_parity [exGoal, exMiss] (3/10) (by simp [exGoal, exMiss])).1⟩

/-- C9: a threshold-change recomputation leaves every record field of the
shared source (`xg` and the outcome flags) unchanged — only `color`, `alpha`
and `marker_size` are rewritten; the aggregates are a pure function of the
current data, so they are unaffected by any earlier display rewrite, and a
second recomputation gives exactly the state a single recomputation at the
final threshold gives (no state is carried between recomputations). -/
theorem callback_frame_property (d : CDS) (t t2 : ℚ) :
    (updateDisplay t d).xg = d.xg ∧
    (updateDisplay t d).goal_flag = d.goal_flag ∧
    (updateDisplay t d).on_target = d.on_target ∧
    (updateDisplay t d).blocked = d.blocked ∧
    (updateDisplay t d).missed = d.missed ∧
    (updateDisplay t d).saved = d.saved ∧
    (updateDisplay t d).post = d.post ∧
    (updateDisplay t d).line_color = d.line_color ∧
    jsAgg t2 (updateDisplay t d) = jsAgg t2 d ∧
    jsStatsOf t2 (updateDisplay t d) = jsStatsOf t2 d ∧
    updateDisplay t2 (updateDisplay t d) = updateDisplay t2 d :=
  ⟨rfl, rfl, rfl, rfl, rfl, rfl, rfl, rfl, rfl, rfl, rfl⟩

/-- C3 (amended): on the empty record sequence every rate and average field
is exactly `0` and the performance delta is `0`, on both paths; but the
maximum probability is a numeric sentinel, not an explicit no-value marker:
`0.0` on the Python path and `-1` on the JavaScript path. -/
theorem empty_view_defaults (t : ℚ) :
    (compute_stats []).conv_pct = 0 ∧
    (compute_stats []).on_tgt_pct = 0 ∧
    (compute_stats []).xg_per = 0 ∧
    (compute_stats []).xg_diff = 0 ∧
    outcome_pcts (compute_stats []) = ⟨0, 0, 0, 0, 0⟩ ∧
    (compute_stats []).high_xg = 0 ∧
    (jsStatsOf t (mkSource [])).convPct = 0 ∧
    (jsStatsOf t (mkSource [])).onTgtPct = 0 ∧
    (jsStatsOf t (mkSource [])).xgPerShot = 0 ∧
    (jsStatsOf t (mkSource [])).xgDiff = 0 ∧
    (jsStatsOf t (mkSource [])).goalPct = 0 ∧
    (jsStatsOf t (mkSource [])).savedPct = 0 ∧
    (jsStatsOf t (mkSource [])).missedPct = 0 ∧
    (jsStatsOf t (mkSource [])).blockedPct = 0 ∧
    (jsStatsOf t (mkSource [])).postPct = 0 ∧
    (jsStatsOf t (mkSource [])).highXg = -1 := by
  refine ⟨rfl, rfl, rfl, by norm_num [compute_stats], rfl, rfl,
    rfl, rfl, rfl, by norm_num [jsStatsOf, jsAgg, jsLoop, jsInit, CDS.rows, mkSource, zipRows],
    rfl, rfl, rfl, rfl, rfl, rfl⟩

/-- C3 counterexample: on the empty view the code's maximum-probability
field holds a numeric sentinel that is indistinguishable from real data —
`0.0` on the Python path and `-1` on the JavaScript path — not an explicit
no-value marker. -/
theorem empty_max_sentinel_cex :
    (compute_stats []).high_xg = (0 : ℚ) ∧ (jsStatsOf 0 (mkSource [])).highXg = (-1 : ℚ) :=
  ⟨rfl, rfl⟩

/-- C2 (amended): the aggregate computation and the cumulative-curve
construction are total — on every input, including the empty sequence, the
three curve sequences are produced with length `count + 1`, and on the
empty sequence each is exactly the synthetic zero point with no reported
peak; the peak-index computation, however, is produced only for non-empty
input (on the empty sequence the source's `idxmax` raises rather than
reporting "no peak", see the counterexample). -/
theorem curve_totality (l : List ShotRecord) :
    (cum_expected_list l).length = l.length + 1 ∧
    (cum_actual_list l).length = l.length + 1 ∧
    (overperf_list l).length = l.length + 1 ∧
    (l = [] → cum_expected_list l = [0] ∧ cum_actual_list l = [0] ∧ overperf_list l = [0] ∧
      peakReported l = false) ∧
    (l ≠ [] → ∃ j, peak_idx_in_list l = Except.ok j) := by
  refine ⟨by simp [cum_expected_list, cumExpectedRows_length],
    by simp [cum_actual_list, cumActualRows_length],
    by simp [overperf_list, overperfRows_length], ?_, ?_⟩
  · rintro rfl
    exact ⟨rfl, rfl, rfl, rfl⟩
  · intro hl
    have hrows : overperfRows l ≠ [] := by
      intro h
      have := overperfRows_length l
      rw [h] at this
      exact hl (List.length_eq_zero.mp this.symm)
    obtain ⟨x, xs, hxx⟩ := List.exists_cons_of_ne_nil hrows
    refine ⟨List.findIdx (fun v => decide (v = xs.foldl max x)) (x :: xs) + 1, ?_⟩
    rw [peak_idx_in_list, hxx]
    rfl

/-- C2 counterexample: on the empty record sequence the peak-index
computation (`opdf["overperf"].idxmax()`, `app.py` line 292) does not
produce a peak or a "no peak" result — pandas raises `ValueError`, modelled
as an error value. -/
theorem peak_errors_on_empty_cex :
    peak_idx_in_list [] = Except.error "attempt to get argmax of an empty sequence" := rfl

/-- C2 witness: the totality theorem applied to the empty sequence and the
peak existence applied to a one-record sequence. -/
theorem curve_totality_witness :
    (cum_expected_list [] = [0] ∧ cum_actual_list [] = [0] ∧ overperf_list [] = [0] ∧
      peakReported [] = false) ∧ (∃ j, peak_idx_in_list [exGoal] = Except.ok j) :=
  ⟨(curve_totality []).2.2.2.1 rfl, (curve_totality [exGoal]).2.2.2.2 (by simp)⟩

/-- C4: the curve construction produces three aligned sequences of length
`count + 1`; index `0` is the synthetic zero point; at every index
`i ≤ count`, `cum_expected` is the probability sum of the first `i` sorted
records, `cum_actual` is the number of `Goal` outcomes among them (as a
rational), and `overperf` is their difference. -/
theorem cumulative_curve_spec (l : List ShotRecord) (i : ℕ) (hi : i ≤ l.length) :
    (cum_expected_list l).length = l.length + 1 ∧
    (cum_actual_list l).length = l.length + 1 ∧
    (overperf_list l).length = l.length + 1 ∧
    (cum_expected_list l).getD 0 0 = 0 ∧
    (cum_actual_list l).getD 0 0 = 0 ∧
    (overperf_list l).getD 0 0 = 0 ∧
    (cum_expected_list l).getD i 0 = (((sortByXG l).take i).map (fun r => r.probability)).sum ∧
    (cum_actual_list l).getD i 0
      = (((sortByXG l).take i).countP (fun r => r.outcome == "Goal") : ℚ) ∧
    (overperf_list l).getD i 0
      = (cum_actual_list l).getD i 0 - (cum_expected_list l).getD i 0 := by
  have hlen1 : ((sortByXG l).map (fun r => r.probability)).length = l.length := by
    simp [sortByXG_length]
  have hlen2 : ((sortByXG l).map goalInd).length = l.length := by
    simp [sortByXG_length]
  have hE : (cum_expected_list l).getD i 0
      = (((sortByXG l).take i).map (fun r => r.probability)).sum := by
    rw [cum_expected_list, cumExpectedRows, cumsum,
      cumsumFrom_getD _ 0 0 i (by rw [hlen1]; exact hi), zero_add, List.map_take]
  have hA : (cum_actual_list l).getD i 0
      = (((sortByXG l).take i).countP (fun r => r.outcome == "Goal") : ℚ) := by
    rw [cum_actual_list, cumActualRows, cumsum,
      cumsumFrom_getD _ 0 0 i (by rw [hlen2]; exact hi), zero_add, ← List.map_take,
      sum_map_goalInd]
  have hO : (overperf_list l).getD i 0
      = (cum_actual_list l).getD i 0 - (cum_expected_list l).getD i 0 := by
    cases i with
    | zero => simp [overperf_list, cum_actual_list, cum_expected_list]
    | succ j =>
        have h1 : j < (cumActualRows l).length := by rw [cumActualRows_length]; omega
        have h2 : j < (cumExpectedRows l).length := by rw [cumExpectedRows_length]; omega
        show (0 :: overperfRows l).getD (j + 1) 0
            = (0 :: cumActualRows l).getD (j + 1) 0 - (0 :: cumExpectedRows l).getD (j + 1) 0
        simp only [List.getD_cons_succ]
        exact zipWith_sub_getD (cumActualRows l) (cumExpectedRows l) j 0 h1 h2
  exact ⟨by simp [cum_expected_list, cumExpectedRows_length],
    by simp [cum_actual_list, cumActualRows_length],
    by simp [overperf_list, overperfRows_length], rfl, rfl, rfl, hE, hA, hO⟩

/-- C4 witness: the curve specification applied to a concrete two-record
sequence at index `1`. -/
theorem cumulative_curve_spec_witness :
    (1 ≤ ([exMiss, exGoal] : List ShotRecord).length) ∧
      (cum_expected_list [exMiss, exGoal]).length = [exMiss, exGoal].length + 1 :=
  ⟨by simp, (cumulative_curve_spec [exMiss, exGoal] 1 (by simp)).1⟩

/-- C7: the last entry of the cumulative curve agrees with the aggregates of
the same unfiltered sequence: `cum_expected[count]` is `compute_stats`'s
probability sum and `cum_actual[count]` is its success count. -/
theorem cumulative_terminal_value (l : List ShotRecord) :
    (cum_expected_list l).getD l.length 0 = (compute_stats l).xg_sum ∧
    (cum_actual_list l).getD l.length 0 = ((compute_stats l).goals : ℚ) := by
  have hperm : List.Perm (sortByXG l) l := List.perm_insertionSort probLE l
  constructor
  · rw [cum_expected_list, cumExpectedRows, cumsum,
      cumsumFrom_getD _ 0 0 l.length (by simp [sortByXG_length]), zero_add,
      List.take_of_length_le (by simp [sortByXG_length])]
    exact (hperm.map (fun r => r.probability)).sum_eq
  · rw [cum_actual_list, cumActualRows, cumsum,
      cumsumFrom_getD _ 0 0 l.length (by simp [sortByXG_length]), zero_add,
      List.take_of_length_le (by simp [sortByXG_length]),
      (hperm.map goalInd).sum_eq, sum_map_goalInd]
    rfl

/-- C6: raising the threshold shrinks the view — for `t1 < t2` the filtered
sequence at `t2` is a subsequence of the one at `t1`, and count, success
count and probability sum of the filtered view are non-increasing in the
threshold. -/
theorem threshold_monotone (l : List ShotRecord) (t1 t2 : ℚ) (ht : t1 < t2)
    (hpos : ∀ r ∈ l, 0 < r.probability) :
    List.Sublist (filterByThreshold l t2) (filterByThreshold l t1) ∧
    (compute_stats (filterByThreshold l t2)).shots
      ≤ (compute_stats (filterByThreshold l t1)).shots ∧
    (compute_stats (filterByThreshold l t2)).goals
      ≤ (compute_stats (filterByThreshold l t1)).goals ∧
    (compute_stats (filterByThreshold l t2)).xg_sum
      ≤ (compute_stats (filterByThreshold l t1)).xg_sum := by
  have hsub : List.Sublist (filterByThreshold l t2) (filterByThreshold l t1) := by
    apply List.monotone_filter_right
    intro r hr
    have h2 : t2 ≤ r.probability := of_decide_eq_true hr
    exact decide_eq_true (le_trans (le_of_lt ht) h2)
  refine ⟨hsub, hsub.length_le, hsub.countP_le _, ?_⟩
  show ((filterByThreshold l t2).map (fun r => r.probability)).sum
      ≤ ((filterByThreshold l t1).map (fun r => r.probability)).sum
  apply List.Sublist.sum_le_sum (hsub.map (fun r => r.probability))
  intro x hx
  rcases List.mem_map.mp hx with ⟨r, hr, hxr⟩
  exact le_of_lt (hxr ▸ hpos r (List.mem_of_mem_filter hr))

/-- C6 witness: the monotonicity theorem applied to a concrete two-record
sequence and the thresholds `0 < 3/10`. -/
theorem threshold_monotone_witness :
    List.Sublist (filterByThreshold [exGoal, exMiss] (3/10))
      (filterByThreshold [exGoal, exMiss] 0) :=
  (threshold_monotone [exGoal, exMiss] 0 (3/10) (by norm_num) (by simp [exGoal, exMiss])).1

lemma getD_of_lt {l : List ℚ} {i : ℕ} (h : i < l.length) (d : ℚ) : l.getD i d = l[i] := by
  simp [List.getD_eq_getElem?_getD, List.getElem?_eq_getElem h]

lemma idxmax_spec (rows : List ℚ) (hne : rows ≠ []) :
    ∃ j, idxmax rows = Except.ok j ∧ j < rows.length ∧
      rows.getD j 0 = listMax rows ∧
      ∀ k, k < j → rows.getD k 0 < listMax rows := by
  match rows with
  | x :: xs =>
      have hMax : listMax (x :: xs) = xs.foldl max x := rfl
      have hmem : listMax (x :: xs) ∈ x :: xs := listMax_mem (x :: xs) (by simp)
      have hex : ∃ v ∈ x :: xs, (fun v => decide (v = xs.foldl max x)) v = true :=
        ⟨listMax (x :: xs), hmem, by rw [hMax]; simp⟩
      have hjlt : (x :: xs).findIdx (fun v => decide (v = xs.foldl max x)) < (x :: xs).length :=
        List.findIdx_lt_length_of_exists hex
      refine ⟨(x :: xs).findIdx (fun v => decide (v = xs.foldl max x)), rfl, hjlt, ?_, ?_⟩
      · have hp := @List.findIdx_getElem _ (fun v => decide (v = xs.foldl max x)) (x :: xs) hjlt
        have h2 : (x :: xs)[(x :: xs).findIdx (fun v => decide (v = xs.foldl max x))]
            = xs.foldl max x := of_decide_eq_true hp
        rw [getD_of_lt hjlt, h2, hMax]
      · intro k hk
        have hkl : k < (x :: xs).length := lt_trans hk hjlt
        have hfalse := List.not_of_lt_findIdx hk
        have hne2 : (x :: xs)[k] ≠ xs.foldl max x := by
          intro heq
          rw [decide_eq_false_iff_not] at hfalse
          exact hfalse heq
        have hle : (x :: xs).getD k 0 ≤ listMax (x :: xs) := by
          rw [getD_of_lt hkl]
          exact le_listMax (x :: xs) _ (List.getElem_mem hkl)
        refine lt_of_le_of_ne hle ?_
        rw [getD_of_lt hkl, hMax]
        exact hne2

/-- C8: for non-empty input the code's peak is the maximum of the
overperformance rows together with the first index attaining it (shifted by
one into curve indexing); the peak label is shown exactly when the value is
strictly positive; and a single record yields a two-point curve whose
reported peak at index `1` exists exactly when that record is a `Goal` with
probability `< 1`. -/
theorem peak_semantics (l : List ShotRecord) (hl : l ≠ [])
    (hpos : ∀ r ∈ l, 0 < r.probability) :
    peak_overp_val l = some (listMax (overperfRows l)) ∧
    (∃ j, peak_idx_in_list l = Except.ok (j + 1) ∧ j < (overperfRows l).length ∧
      (overperfRows l).getD j 0 = listMax (overperfRows l) ∧
      ∀ k, k < j → (overperfRows l).getD k 0 < listMax (overperfRows l)) ∧
    (peakReported l = true ↔ 0 < listMax (overperfRows l)) ∧
    (∀ r, l = [r] →
      ((overperf_list l).length = 2 ∧ peak_idx_in_list l = Except.ok 1 ∧
        (peakReported l = true ↔ (r.outcome = "Goal" ∧ r.probability < 1)))) := by
  have hrows : overperfRows l ≠ [] := by
    intro h
    have := overperfRows_length l
    rw [h] at this
    exact hl (List.length_eq_zero.mp this.symm)
  have hval : peak_overp_val l = some (listMax (overperfRows l)) := by
    obtain ⟨x, xs, hxx⟩ := List.exists_cons_of_ne_nil hrows
    rw [peak_overp_val, hxx]
    rfl
  have hrep : peakReported l = true ↔ 0 < listMax (overperfRows l) := by
    unfold peakReported
    rw [hval]
    simp
  refine ⟨hval, ?_, hrep, ?_⟩
  · obtain ⟨j, h1, h2, h3, h4⟩ := idxmax_spec (overperfRows l) hrows
    refine ⟨j, ?_, h2, h3, h4⟩
    rw [peak_idx_in_list, h1]
    rfl
  · rintro r rfl
    have hp : 0 < r.probability := hpos r (List.mem_cons_self r [])
    have hone : overperfRows [r] = [(0 + goalInd r) - (0 + r.probability)] := rfl
    refine ⟨rfl, ?_, ?_⟩
    · rw [peak_idx_in_list, hone, idxmax]
      simp [List.findIdx_cons]
      rfl
    · rw [hrep, hone]
      by_cases hg : r.outcome = "Goal"
      · have hb : (r.outcome == "Goal") = true := beq_iff_eq.mpr hg
        simp [listMax, goalInd, hb, hg]
      · have hb : (r.outcome == "Goal") = false := by
          simp [hg]
        simp [listMax, goalInd, hb, hg]
        linarith

/-- C8 witness: the peak theorem applied to a single converted chance. -/
theorem peak_semantics_witness :
    ([exGoal] : List ShotRecord) ≠ [] ∧
      peak_overp_val [exGoal] = some (listMax (overperfRows [exGoal])) :=
  ⟨by simp, (peak_semantics [exGoal] (by simp) (by simp [exGoal])).1⟩

lemma filterMap_attempts_sum (g gg : String → ℕ) (cats : List String) :
    ((cats.filterMap (fun s =>
        if 0 < g s then
          some { category := s, attempts := g s, goals := gg s,
                 conv := (gg s : ℚ) / (g s : ℚ) * 100 }
        else (none : Option CatRow))).map CatRow.attempts).sum
      = (cats.map g).sum := by
  induction cats with
  | nil => rfl
  | cons c cs ih =>
      rcases Nat.eq_zero_or_pos (g c) with h | h
      · simp [List.filterMap_cons, h, ih]
      · simp [List.filterMap_cons, h, ih]

lemma countP_three_situations (l : List ShotRecord) :
    sit_counts l "FromCorner" + sit_counts l "SetPiece" + sit_counts l "OpenPlay" =
      l.countP (fun r => situations.contains r.situation) := by
  induction l with
  | nil => rfl
  | cons r t ih =>
      simp only [sit_counts, List.countP_cons] at ih ⊢
      by_cases h1 : r.situation = "FromCorner" <;>
        by_cases h2 : r.situation = "SetPiece" <;>
        by_cases h3 : r.situation = "OpenPlay" <;>
        simp [situations, h1, h2, h3, sit_counts] at * <;>
        omega

lemma countP_four_types (l : List ShotRecord) :
    type_counts l "Head" + type_counts l "RightFoot" + type_counts l "LeftFoot"
        + type_counts l "OtherBodyPart" =
      l.countP (fun r => shot_types.contains r.shotType) := by
  induction l with
  | nil => rfl
  | cons r t ih =>
      simp only [type_counts, List.countP_cons] at ih ⊢
      by_cases h1 : r.shotType = "Head" <;>
        by_cases h2 : r.shotType = "RightFoot" <;>
        by_cases h3 : r.shotType = "LeftFoot" <;>
        by_cases h4 : r.shotType = "OtherBodyPart" <;>
        simp [shot_types, h1, h2, h3, h4, type_counts] at * <;>
        omega

/-- C10: the category breakdowns count only records whose category value is
in the fixed display list — the attempts of all situation groups sum to the
number of records whose situation is listed (likewise for shot types), so a
record with an unlisted category (such as situation `"Penalty"`) contributes
to no group, and on such inputs the groups sum to strictly less than the
record count. -/
theorem group_by_category_drops_unlisted (l : List ShotRecord) :
    ((sit_data l).map CatRow.attempts).sum
      = l.countP (fun r => situations.contains r.situation) ∧
    ((type_data l).map CatRow.attempts).sum
      = l.countP (fun r => shot_types.contains r.shotType) ∧
    ((sit_data [exPenalty]).map CatRow.attempts).sum
      < ([exPenalty] : List ShotRecord).length := by
  refine ⟨?_, ?_, ?_⟩
  · rw [sit_data, filterMap_attempts_sum, ← countP_three_situations l]
    simp [situations]
    omega
  · rw [type_data, filterMap_attempts_sum, ← countP_four_types l]
    simp [shot_types]
    omega
  · simp [sit_data, situations, sit_counts, sit_goals, exPenalty, List.filterMap_cons]
